import Mathlib

/-!
Verification of the SPH simulation core (`src/SPH_Simulation.py`).

The numpy arrays of the source are modelled as functions `Fin N → ℝ` (scalar
arrays of shape `(N,)`) and `Fin N → ℝ × ℝ` (vector arrays of shape `(N, 2)`);
floating-point numbers are idealised as real numbers.  Pairwise quantities of
shape `(N, N)` / `(N, N, 2)` become curried functions of two indices, and
`np.sum(..., axis=1)` becomes a `Finset` sum over the second index.  Where the
source relies on numpy broadcasting between arrays of different shapes, the
alignment of axes is made explicit by a named helper whose doc comment records
the shapes involved.
-/

noncomputable section

namespace SPH

open scoped BigOperators

/-- Euclidean norm of a 2D vector, as computed by `np.linalg.norm` on the last
axis of a `(..., 2)` array. -/
def vnorm (d : ℝ × ℝ) : ℝ := Real.sqrt (d.1 ^ 2 + d.2 ^ 2)

/-- Source `gaussian(d, h)` (line 40):
`1 / (h * np.sqrt(2 * np.pi)) * np.exp(-(np.linalg.norm(d, axis=-1) ** 2) / (2 * (h ** 2)))`,
applied elementwise to a displacement vector `d`. -/
def gaussian (d : ℝ × ℝ) (h : ℝ) : ℝ :=
  1 / (h * Real.sqrt (2 * Real.pi)) * Real.exp (-(vnorm d ^ 2) / (2 * h ^ 2))

/-- Source `gaussian_grad(d, h)` (line 56):
`-1 / ((h ** 3) * np.sqrt(2 * np.pi)) * np.exp(-(dnorm ** 2) / (2 * (h ** 2))) * d`,
applied elementwise to a displacement vector `d` (the scalar prefactor
multiplies both components of `d`). -/
def gaussian_grad (d : ℝ × ℝ) (h : ℝ) : ℝ × ℝ :=
  (-1 / (h ^ 3 * Real.sqrt (2 * Real.pi)) * Real.exp (-(vnorm d ^ 2) / (2 * h ^ 2))) • d

/-- numpy broadcast of the row array `a[np.newaxis, :]` (shape `(1, N)`)
against a matrix of shape `(N, N)`: the row array's single axis is the
trailing axis, so its index aligns with the matrix's second (column) index
`j`; the leading axis of length 1 is stretched over the first index `i`. -/
def bcastRow {n : ℕ} (a : Fin n → ℝ) : Fin n → Fin n → ℝ := fun _i j => a j

/-- numpy broadcast of a column array of shape `(N, 1)` against a tensor of
shape `(N, N, 2)`: broadcasting aligns trailing axes, so `(N, 1)` is padded on
the left to `(1, N, 1)`; its length-`N` axis therefore lines up with the
MIDDLE axis of the tensor (the summed neighbour index `j`), not with the
leading target-particle axis `i`, and the length-1 axes are stretched. -/
def bcastColMid {n : ℕ} (a : Fin n → ℝ) : Fin n → Fin n → ℝ := fun _i j => a j

/-- Density formula shared by `reconstruct_density` (line 44) and the
constructor: `densities = np.sum(masses[np.newaxis, :] * gaussian(positions_diff, h), axis=1)`
with `positions_diff[i][j] = positions[i] - positions[j]`. -/
def density_core {n : ℕ} (masses : Fin n → ℝ) (positions : Fin n → ℝ × ℝ) (h : ℝ) :
    Fin n → ℝ :=
  fun i => ∑ j, bcastRow masses i j * gaussian (positions i - positions j) h

/-- Source class `ParticleList` (line 7).  `num_particles = positions.shape[0]`
is the type-level size `n`. -/
structure ParticleList (n : ℕ) where
  masses : Fin n → ℝ
  positions : Fin n → ℝ × ℝ
  velocities : Fin n → ℝ × ℝ
  h : ℝ
  k : ℝ
  num_fluid_particles : ℕ
  rest_densities : Fin n → ℝ

/-- Source `reconstruct_density(particles)` (line 44): it reads only the
masses, positions and smoothing length of the particle list. -/
def reconstruct_density {n : ℕ} (pl : ParticleList n) : Fin n → ℝ :=
  density_core pl.masses pl.positions pl.h

/-- Source `ParticleList.__init__` (line 8): stores its arguments unchanged
and sets `rest_densities = reconstruct_density(self)` on the just-stored
state.  No validation of any kind is performed. -/
def ParticleList.init {n : ℕ} (masses : Fin n → ℝ) (positions velocities : Fin n → ℝ × ℝ)
    (h k : ℝ) (num_fluid_particles : ℕ) : ParticleList n :=
  { masses := masses
    positions := positions
    velocities := velocities
    h := h
    k := k
    num_fluid_particles := num_fluid_particles
    rest_densities := density_core masses positions h }

/-- Source `eval_pressure(particles, densities)` (line 51):
`pressures = particles.k * np.maximum((densities / particles.rest_densities) - 1, 0)`. -/
def eval_pressure {n : ℕ} (pl : ParticleList n) (densities : Fin n → ℝ) : Fin n → ℝ :=
  fun i => pl.k * max (densities i / pl.rest_densities i - 1) 0

/-- Source `eval_pressure_grad(particles, densities)` (line 61).
`fraction_sum = pressures[:, None] / densities[:, None]**2 + pressures[:, None] / densities[:, None]**2`
is a column array of shape `(N, 1)`, as are `densities[:, None]` and
`particles.masses[:, None]`; their elementwise product `colfac` is again
`(N, 1)`.  The final line multiplies that `(N, 1)` column against the
`(N, N, 2)` gradient tensor — `bcastColMid` records that this broadcast
attaches the column's index to the summed axis `j` — and sums over `axis=1`. -/
def eval_pressure_grad {n : ℕ} (pl : ParticleList n) (densities : Fin n → ℝ) :
    Fin n → ℝ × ℝ :=
  let pressures := eval_pressure pl densities
  let fraction_sum : Fin n → ℝ := fun i =>
    pressures i / densities i ^ 2 + pressures i / densities i ^ 2
  let colfac : Fin n → ℝ := fun i => densities i * pl.masses i * fraction_sum i
  fun i => ∑ j, bcastColMid colfac i j • gaussian_grad (pl.positions i - pl.positions j) pl.h

/-- Source `apply_gravity_force(particles, g, dt)` (line 34): copies the
velocity array and adds `dt * g` to the first `num_fluid_particles` entries. -/
def apply_gravity_force {n : ℕ} (pl : ParticleList n) (g : ℝ × ℝ) (dt : ℝ) :
    Fin n → ℝ × ℝ :=
  fun i => if i.1 < pl.num_fluid_particles then pl.velocities i + dt • g else pl.velocities i

/-- Source `apply_pressure_force(particles, velocities, densities, pressure_grads, dt)`
(line 70): `force = -1 / densities[:, None] * pressure_grads` and
`velocities + dt * force / particles.masses[:, None]`.  Here the `(N, 1)`
columns broadcast against `(N, 2)` arrays, so their index aligns with the
leading particle axis `i`; every index, boundary included, is updated. -/
def apply_pressure_force {n : ℕ} (pl : ParticleList n) (velocities : Fin n → ℝ × ℝ)
    (densities : Fin n → ℝ) (pressure_grads : Fin n → ℝ × ℝ) (dt : ℝ) :
    Fin n → ℝ × ℝ :=
  let force : Fin n → ℝ × ℝ := fun i => (-1 / densities i) • pressure_grads i
  fun i => velocities i + (pl.masses i)⁻¹ • (dt • force i)

/-- Source `update_positions(particles, velocities, dt)` (line 28): copies the
position array and adds `dt * velocities` to the first `num_fluid_particles`
entries only. -/
def update_positions {n : ℕ} (pl : ParticleList n) (velocities : Fin n → ℝ × ℝ)
    (dt : ℝ) : Fin n → ℝ × ℝ :=
  fun i => if i.1 < pl.num_fluid_particles then pl.positions i + dt • velocities i
           else pl.positions i

/-- Source `timestep(particles, g, dt)` (line 19): density, pressure gradient,
gravity, pressure force, position update, then commit positions and
velocities back into the particle list (Python mutates in place; here the
updated record is returned). -/
def timestep {n : ℕ} (pl : ParticleList n) (g : ℝ × ℝ) (dt : ℝ) : ParticleList n :=
  let densities := reconstruct_density pl
  let pressure_grads := eval_pressure_grad pl densities
  let velocities1 := apply_gravity_force pl g dt
  let new_velocities := apply_pressure_force pl velocities1 densities pressure_grads dt
  let new_positions := update_positions pl new_velocities dt
  { pl with positions := new_positions, velocities := new_velocities }

/-- `K` sequential calls of `timestep` on the same particle list, as the
driver loop at line 117 performs. -/
def run_steps {n : ℕ} (g : ℝ × ℝ) (dt : ℝ) (K : ℕ) (pl : ParticleList n) : ParticleList n :=
  (fun p => timestep p g dt)^[K] pl

/-- Pressure gradient exactly as the spec's §4.4 words state it:
`pressureGrad(i) = Σ_j density_i · mass_j · (pressure_i/density_i² + pressure_i/density_i²) · kernelGradient(position_i − position_j, h)`,
with BOTH symmetrization addends taken from the target particle `i`.  This
definition follows the spec's words, to be compared with
`eval_pressure_grad`, which follows the source. -/
def spec_pressure_grad {n : ℕ} (pl : ParticleList n) (densities : Fin n → ℝ) :
    Fin n → ℝ × ℝ :=
  let pressures := eval_pressure pl densities
  fun i => ∑ j,
    (densities i * pl.masses j *
      (pressures i / densities i ^ 2 + pressures i / densities i ^ 2)) •
      gaussian_grad (pl.positions i - pl.positions j) pl.h

/-! Constructor behaviour on raw, possibly inconsistent arrays.  The `Fin n`
model above fixes all array lengths to `n` by typing, so the source's
behaviour on length-mismatched inputs is modelled separately on plain lists.
`__init__` itself performs no checks; the only thing that can fail during
construction is the numpy broadcast inside `reconstruct_density`. -/

/-- Result record of the raw constructor: the stored fields of `ParticleList`
with `num_particles = positions.shape[0]` (line 14). -/
structure RawParticleList where
  masses : List ℝ
  positions : List (ℝ × ℝ)
  velocities : List (ℝ × ℝ)
  h : ℝ
  k : ℝ
  num_particles : ℕ
  num_fluid_particles : ℕ
  rest_densities : List ℝ

/-- Source `reconstruct_density` applied to raw arrays of independent lengths
`M = len(masses)` and `N = len(positions)`.  The product
`masses[np.newaxis, :] * gaussian(positions_diff, h)` multiplies shapes
`(1, M)` and `(N, N)`; numpy broadcasting accepts this exactly when `M = N`
(plain elementwise columns), `M = 1` (the single mass is stretched over all
columns), or `N = 1` (the single kernel value `W(0)` is stretched over all
`M` columns, so the one density is `(Σ_j mass_j) · W(0)`).  Any other pair of
lengths raises a `ValueError` during construction, modelled as `none`. -/
def reconstruct_density_raw (masses : List ℝ) (positions : List (ℝ × ℝ)) (h : ℝ) :
    Option (List ℝ) :=
  if masses.length = positions.length then
    some (positions.map (fun pi =>
      ((masses.zip positions).map (fun mp => mp.1 * gaussian (pi - mp.2) h)).sum))
  else if masses.length = 1 then
    some (positions.map (fun pi =>
      (positions.map (fun pj => masses.headD 0 * gaussian (pi - pj) h)).sum))
  else if positions.length = 1 then
    some (positions.map (fun pi =>
      (masses.map (fun mj => mj * gaussian (pi - pi) h)).sum))
  else none

/-- Source `ParticleList.__init__` (line 8) on raw arrays: every argument is
stored unconditionally — there is no length check and no check of
`num_fluid_particles` against the particle count — and the only possible
failure is the broadcast error inside the `reconstruct_density` call. -/
def ParticleList_init_raw (masses : List ℝ) (positions velocities : List (ℝ × ℝ))
    (h k : ℝ) (num_fluid_particles : ℕ) : Option RawParticleList :=
  (reconstruct_density_raw masses positions h).map (fun rd =>
    { masses := masses
      positions := positions
      velocities := velocities
      h := h
      k := k
      num_particles := positions.length
      num_fluid_particles := num_fluid_particles
      rest_densities := rd })

/-! Theorems. -/

/-- C3: for every particle state and every particle index `i`, the density
estimator returns `density(i) = Σ_j mass_j · kernelValue(position_i − position_j, h)`,
summed over all `N` particles including the self term `j = i`. -/
theorem reconstruct_density_formula {n : ℕ} (pl : ParticleList n) (i : Fin n) :
    reconstruct_density pl i
      = ∑ j, pl.masses j * gaussian (pl.positions i - pl.positions j) pl.h := rfl

/-- C2: `eval_pressure_grad` returns, for each target index `i`, the sum over
all `N` particles `j` of `density_j · mass_j · (2·pressure_j/density_j²) ·
kernelGradient(position_i − position_j, h)` — the density, mass and pressure
factors attach to the summed neighbour index `j`, because the `(N,1)` column
arrays broadcast against the middle axis of the `(N,N,2)` gradient tensor. -/
theorem eval_pressure_grad_formula {n : ℕ} (pl : ParticleList n)
    (densities : Fin n → ℝ) (i : Fin n) :
    eval_pressure_grad pl densities i
      = ∑ j, (densities j * pl.masses j *
          (2 * eval_pressure pl densities j / densities j ^ 2)) •
          gaussian_grad (pl.positions i - pl.positions j) pl.h := by
  unfold eval_pressure_grad bcastColMid
  refine Finset.sum_congr rfl fun j _ => ?_
  congr 1
  ring

/-- C1 (amended): the pressure gradient the code computes is
`Σ_j density_j · mass_j · (pressure_j/density_j² + pressure_j/density_j²) ·
kernelGradient(position_i − position_j, h)` — both symmetrization addends use
the NEIGHBOUR particle `j`'s pressure and density, so the bracketed factor
varies across the inner sum instead of being constant. -/
theorem eval_pressure_grad_neighbor_indexed {n : ℕ} (pl : ParticleList n)
    (densities : Fin n → ℝ) (i : Fin n) :
    eval_pressure_grad pl densities i
      = ∑ j, (densities j * pl.masses j *
          (eval_pressure pl densities j / densities j ^ 2 +
           eval_pressure pl densities j / densities j ^ 2)) •
          gaussian_grad (pl.positions i - pl.positions j) pl.h := rfl

/-- C4: the equation of state returns `k · max(density_i/restDensity_i − 1, 0)`,
and (for the nonnegative stiffness the system uses) the result is never
negative, whatever the density/rest-density ratio. -/
theorem eval_pressure_eos_nonneg {n : ℕ} (pl : ParticleList n)
    (densities : Fin n → ℝ) (i : Fin n) (hk : 0 ≤ pl.k) :
    eval_pressure pl densities i
        = pl.k * max (densities i / pl.rest_densities i - 1) 0
    ∧ 0 ≤ eval_pressure pl densities i :=
  ⟨rfl, mul_nonneg hk (le_max_right _ _)⟩

/-- Concrete one-particle state with the repository's parameters
(`mass = 0.1`, `h = 0.02`, `k = 2.3`), used to instantiate hypotheses. -/
def wpl : ParticleList 1 :=
  ParticleList.init (fun _ => 0.1) (fun _ => (0, 0)) (fun _ => (0, 0)) 0.02 2.3 1

/-- Witness for C4 at the concrete state `wpl` and density value 2. -/
theorem eval_pressure_eos_nonneg_witness :
    0 ≤ wpl.k
    ∧ (eval_pressure wpl (fun _ => 2) 0
          = wpl.k * max ((fun _ => (2:ℝ)) 0 / wpl.rest_densities 0 - 1) 0
       ∧ 0 ≤ eval_pressure wpl (fun _ => 2) 0) :=
  ⟨by norm_num [wpl, ParticleList.init],
   eval_pressure_eos_nonneg wpl (fun _ => 2) 0 (by norm_num [wpl, ParticleList.init])⟩

/-- C10: both kernels match their closed forms with `‖d‖² = d.1² + d.2²`; at
`d = 0`, the kernel value is the finite positive constant `1/(h·√(2π))` and
the gradient is the zero vector. -/
theorem gaussian_kernel_closed_form (d : ℝ × ℝ) (h : ℝ) (hh : 0 < h) :
    gaussian d h
        = 1 / (h * Real.sqrt (2 * Real.pi)) * Real.exp (-(d.1 ^ 2 + d.2 ^ 2) / (2 * h ^ 2))
    ∧ gaussian_grad d h
        = (-1 / (h ^ 3 * Real.sqrt (2 * Real.pi)) *
            Real.exp (-(d.1 ^ 2 + d.2 ^ 2) / (2 * h ^ 2))) • d
    ∧ gaussian (0, 0) h = 1 / (h * Real.sqrt (2 * Real.pi))
    ∧ 0 < gaussian (0, 0) h
    ∧ gaussian_grad (0, 0) h = (0, 0) := by
  have hsq : vnorm d ^ 2 = d.1 ^ 2 + d.2 ^ 2 := Real.sq_sqrt (by positivity)
  have hzero : gaussian (0, 0) h = 1 / (h * Real.sqrt (2 * Real.pi)) := by
    simp [gaussian, vnorm]
  refine ⟨by rw [gaussian, hsq], by rw [gaussian_grad, hsq], hzero, ?_, ?_⟩
  · rw [hzero]
    positivity
  · simp [gaussian_grad, Prod.smul_mk]

/-- Witness for C10 at `d = (3, 4)`, `h = 1`. -/
theorem gaussian_kernel_closed_form_witness :
    (0:ℝ) < 1
    ∧ (gaussian ((3:ℝ), (4:ℝ)) 1
          = 1 / (1 * Real.sqrt (2 * Real.pi)) *
              Real.exp (-((3:ℝ) ^ 2 + (4:ℝ) ^ 2) / (2 * 1 ^ 2))
       ∧ gaussian_grad ((3:ℝ), (4:ℝ)) 1
          = (-1 / (1 ^ 3 * Real.sqrt (2 * Real.pi)) *
              Real.exp (-((3:ℝ) ^ 2 + (4:ℝ) ^ 2) / (2 * 1 ^ 2))) • ((3:ℝ), (4:ℝ))
       ∧ gaussian (0, 0) 1 = 1 / (1 * Real.sqrt (2 * Real.pi))
       ∧ 0 < gaussian (0, 0) 1
       ∧ gaussian_grad (0, 0) 1 = (0, 0)) :=
  ⟨by norm_num, gaussian_kernel_closed_form ((3:ℝ), (4:ℝ)) 1 (by norm_num)⟩

/-- C7: `apply_pressure_force` updates EVERY particle index — the statement
quantifies over all `i : Fin n`, boundary particles included — by
`velocity + dt · force / mass` componentwise, with `force = −pressureGrad/density`. -/
theorem apply_pressure_force_all_indices {n : ℕ} (pl : ParticleList n)
    (velocities : Fin n → ℝ × ℝ) (densities : Fin n → ℝ)
    (pressure_grads : Fin n → ℝ × ℝ) (dt : ℝ) (i : Fin n) :
    apply_pressure_force pl velocities densities pressure_grads dt i
      = ((velocities i).1 + dt * (-(pressure_grads i).1 / densities i) / pl.masses i,
         (velocities i).2 + dt * (-(pressure_grads i).2 / densities i) / pl.masses i) := by
  unfold apply_pressure_force
  rw [Prod.ext_iff]
  constructor <;> simp [smul_eq_mul] <;> ring

/-- One `timestep` leaves every boundary position (index at or beyond
`num_fluid_particles`) unchanged: `update_positions` writes only `[0, F)`. -/
theorem timestep_positions_boundary {n : ℕ} (pl : ParticleList n) (g : ℝ × ℝ)
    (dt : ℝ) (i : Fin n) (hi : pl.num_fluid_particles ≤ i.1) :
    (timestep pl g dt).positions i = pl.positions i := by
  show update_positions pl
      (apply_pressure_force pl (apply_gravity_force pl g dt) (reconstruct_density pl)
        (eval_pressure_grad pl (reconstruct_density pl)) dt) dt i
    = pl.positions i
  simp only [update_positions]
  rw [if_neg (not_lt.mpr hi)]

/-- C5: for any initial state and any number `K` of steps, the boundary
entries `positions[F:N]` are exactly their construction-time values. -/
theorem boundary_positions_invariant {n : ℕ} (g : ℝ × ℝ) (dt : ℝ) (K : ℕ)
    (pl : ParticleList n) (i : Fin n) (hi : pl.num_fluid_particles ≤ i.1) :
    (run_steps g dt K pl).positions i = pl.positions i := by
  induction K generalizing pl with
  | zero => rfl
  | succ K ih =>
    have hstep : run_steps g dt (K + 1) pl = run_steps g dt K (timestep pl g dt) :=
      Function.iterate_succ_apply _ _ _
    rw [hstep, ih (timestep pl g dt) hi]
    exact timestep_positions_boundary pl g dt i hi

/-- Concrete one-particle state in which the single particle is boundary
(`num_fluid_particles = 0`). -/
def wpl_b : ParticleList 1 :=
  ParticleList.init (fun _ => 0.1) (fun _ => (0.3, 0)) (fun _ => (0, 0)) 0.02 2.3 0

/-- Witness for C5: three steps with gravity leave the boundary particle of
`wpl_b` exactly where it was constructed. -/
theorem boundary_positions_invariant_witness :
    wpl_b.num_fluid_particles ≤ (0 : Fin 1).1
    ∧ (run_steps (0, -1) 0.02 3 wpl_b).positions 0 = wpl_b.positions 0 :=
  ⟨Nat.zero_le _, boundary_positions_invariant (0, -1) 0.02 3 wpl_b 0 (Nat.zero_le _)⟩

/-- `run_steps` never writes the rest-density array. -/
theorem run_steps_rest_densities {n : ℕ} (g : ℝ × ℝ) (dt : ℝ) (K : ℕ) :
    ∀ pl : ParticleList n, (run_steps g dt K pl).rest_densities = pl.rest_densities := by
  induction K with
  | zero => intro pl; rfl
  | succ K ih =>
    intro pl
    have hstep : run_steps g dt (K + 1) pl = run_steps g dt K (timestep pl g dt) :=
      Function.iterate_succ_apply _ _ _
    rw [hstep, ih (timestep pl g dt)]
    rfl

/-- C6: the rest-density array is set at construction by one invocation of the
density estimator on the initial configuration, and after any number `K` of
steps it still equals that construction-time value. -/
theorem rest_densities_write_once {n : ℕ} (masses : Fin n → ℝ)
    (positions velocities : Fin n → ℝ × ℝ) (h k : ℝ) (F : ℕ)
    (g : ℝ × ℝ) (dt : ℝ) (K : ℕ) :
    (ParticleList.init masses positions velocities h k F).rest_densities
        = reconstruct_density (ParticleList.init masses positions velocities h k F)
    ∧ (run_steps g dt K (ParticleList.init masses positions velocities h k F)).rest_densities
        = (ParticleList.init masses positions velocities h k F).rest_densities :=
  ⟨rfl, run_steps_rest_densities g dt K _⟩

/-- C9: if every computed density equals the rest density (all nonzero) and
gravity is the zero vector, every pressure and every pressure gradient is
zero, and one step leaves the velocity array unchanged. -/
theorem quiescence {n : ℕ} (pl : ParticleList n) (dt : ℝ)
    (hd : ∀ i, reconstruct_density pl i = pl.rest_densities i)
    (hr : ∀ i, pl.rest_densities i ≠ 0) :
    (∀ i, eval_pressure pl (reconstruct_density pl) i = 0)
    ∧ (∀ i, eval_pressure_grad pl (reconstruct_density pl) i = (0, 0))
    ∧ (timestep pl (0, 0) dt).velocities = pl.velocities := by
  have h00 : ((0, 0) : ℝ × ℝ) = 0 := rfl
  have hp : ∀ i, eval_pressure pl (reconstruct_density pl) i = 0 := by
    intro i
    unfold eval_pressure
    rw [hd i, div_self (hr i)]
    simp
  have hpg : ∀ i, eval_pressure_grad pl (reconstruct_density pl) i = (0, 0) := by
    intro i
    rw [h00]
    simp only [eval_pressure_grad, bcastColMid]
    refine Finset.sum_eq_zero fun j _ => ?_
    rw [hp j]
    simp
  refine ⟨hp, hpg, ?_⟩
  funext i
  show apply_pressure_force pl (apply_gravity_force pl (0, 0) dt) (reconstruct_density pl)
      (eval_pressure_grad pl (reconstruct_density pl)) dt i = pl.velocities i
  simp only [apply_pressure_force]
  rw [hpg i, h00]
  simp only [apply_gravity_force]
  split <;> simp [h00]

/-- Witness for C9: the one-particle state `wpl` satisfies
`reconstruct_density = rest_densities` by construction and has nonzero rest
density; pressure and pressure gradient vanish and a zero-gravity step keeps
its velocities. -/
theorem quiescence_witness :
    reconstruct_density wpl 0 = wpl.rest_densities 0
    ∧ wpl.rest_densities 0 ≠ 0
    ∧ eval_pressure wpl (reconstruct_density wpl) 0 = 0
    ∧ eval_pressure_grad wpl (reconstruct_density wpl) 0 = (0, 0)
    ∧ (timestep wpl (0, 0) 0.02).velocities = wpl.velocities := by
  have hd : ∀ i, reconstruct_density wpl i = wpl.rest_densities i := fun _ => rfl
  have hr : ∀ i : Fin 1, wpl.rest_densities i ≠ 0 := by
    intro i
    have hpos : 0 < wpl.rest_densities i := by
      simp only [wpl, ParticleList.init, density_core, bcastRow, gaussian, vnorm,
        Fin.sum_univ_one, sub_self]
      positivity
    exact ne_of_gt hpos
  exact ⟨hd 0, hr 0, (quiescence wpl 0.02 hd hr).1 0,
    (quiescence wpl 0.02 hd hr).2.1 0, (quiescence wpl 0.02 hd hr).2.2⟩

/-- Concrete two-particle state with unequal densities, exhibiting the gap
between the source's pressure gradient and the spec's §4.4 formula. -/
def cex_pl : ParticleList 2 :=
  { masses := fun _ => 1
    positions := fun i => if i.1 = 0 then ((0:ℝ), (0:ℝ)) else (1, 0)
    velocities := fun _ => (0, 0)
    h := 1
    k := 1
    num_fluid_particles := 2
    rest_densities := fun _ => 1 }

/-- Density argument for the counterexample state: 1 for particle 0, 2 for
particle 1 — both nonzero, with unequal resulting pressures. -/
def cex_densities : Fin 2 → ℝ := fun i => if i.1 = 0 then 1 else 2

/-- C1 fails on the code: at `cex_pl` with densities `(1, 2)` — all nonzero —
particle 0 has zero pressure, so the spec's formula (both symmetrization
addends from particle `i = 0`) gives the zero vector, while the code's
gradient picks up particle 1's pressure through the neighbour-indexed
broadcast and is nonzero. -/
theorem pressure_grad_spec_formula_counterexample :
    cex_densities 0 ≠ 0 ∧ cex_densities 1 ≠ 0
    ∧ eval_pressure_grad cex_pl cex_densities 0 ≠ spec_pressure_grad cex_pl cex_densities 0 := by
  have e0 : cex_densities 0 = 1 := rfl
  have e1 : cex_densities 1 = 2 := rfl
  have hP0 : eval_pressure cex_pl cex_densities 0 = 0 := by
    norm_num [eval_pressure, cex_pl, e0]
  have hP1 : eval_pressure cex_pl cex_densities 1 = 1 := by
    norm_num [eval_pressure, cex_pl, e1]
  have hspec : spec_pressure_grad cex_pl cex_densities 0 = 0 := by
    simp only [spec_pressure_grad, Fin.sum_univ_two, hP0]
    simp
  have hval : (eval_pressure_grad cex_pl cex_densities 0).1
      = Real.exp (-(1/2)) / (Real.sqrt 2 * Real.sqrt Real.pi) := by
    simp only [eval_pressure_grad, bcastColMid, Fin.sum_univ_two, hP0, hP1]
    norm_num [e0, e1, cex_pl, gaussian_grad, vnorm, Real.sqrt_one]
    ring
  have hcode : 0 < (eval_pressure_grad cex_pl cex_densities 0).1 := by
    rw [hval]; positivity
  refine ⟨by rw [e0]; exact one_ne_zero, by rw [e1]; exact two_ne_zero,
    fun hcontra => ?_⟩
  have h1 := congrArg Prod.fst hcontra
  rw [hspec] at h1
  simp only [Prod.fst_zero] at h1
  exact ne_of_gt hcode h1

/-- C8 fails on the code: a constructor call whose velocities array is empty
(length 0 ≠ 1) and whose fluid count 5 exceeds the single particle
nonetheless succeeds — `__init__` validates nothing. -/
theorem init_raw_no_validation_counterexample :
    ([((0:ℝ), (0:ℝ))] : List (ℝ × ℝ)).length < 5
    ∧ (ParticleList_init_raw [1] [((0:ℝ), (0:ℝ))] [] 1 1 5).isSome = true := by
  refine ⟨by norm_num, ?_⟩
  simp [ParticleList_init_raw, reconstruct_density_raw]

/-- C8 (amended): construction succeeds exactly when the masses array can be
broadcast against the kernel matrix — `len(masses) = len(positions)`, or
`len(masses) = 1`, or `len(positions) = 1` — independently of the velocities
array and of `num_fluid_particles`, which are stored without any check. -/
theorem init_raw_isSome_iff (masses : List ℝ) (positions velocities : List (ℝ × ℝ))
    (h k : ℝ) (F : ℕ) :
    (ParticleList_init_raw masses positions velocities h k F).isSome = true
      ↔ (masses.length = positions.length ∨ masses.length = 1 ∨ positions.length = 1) := by
  unfold ParticleList_init_raw reconstruct_density_raw
  split_ifs <;> simp [*]

end SPH

end
